import Mathlib

/-!
Verification of the ORACLES.run client-side forecasting agents
(`docs/examples/python/*.py` and `docs/examples/openclaw/**/*.py`).

The decision-and-submission engine lives in `groq_oracle.py`: it fetches
open markets and the agent's own prior forecasts, decides eligibility per
task (expiry / revote policy), analyzes eligible tasks, sizes a stake from
an effective confidence, and constructs a signed submission payload.

Modelling conventions:
* Python floats are modelled as rationals (`ℚ`); Python's `round`
  (round-half-to-even on the idealized value) is modelled by `pyRound`.
* Python dict lookups with `.get` become `Option` fields with `Option.getD`.
* The network and the LLM providers are external: the analyzer is a
  parameter `Market → Except String AIOutput` (exception = `.error`),
  and ISO-8601 parsing (`datetime.fromisoformat`, an external library
  call wrapped in try/except by `iso_to_unix`) is a parameter
  `String → Option ℤ` (`none` = the library raised).
-/

namespace OraclesRun

/-- Python's built-in `round` on an (idealized, rational) value:
round to nearest integer, ties to even. -/
def pyRound (q : ℚ) : ℤ :=
  if q - ⌊q⌋ < 1/2 then ⌊q⌋
  else if 1/2 < q - ⌊q⌋ then ⌊q⌋ + 1
  else if ⌊q⌋ % 2 = 0 then ⌊q⌋ else ⌊q⌋ + 1

/-- Python's `round(x, 4)` on an idealized rational value. -/
def round4 (q : ℚ) : ℚ := (pyRound (q * 10000) : ℚ) / 10000

/-- `groq_oracle.py` line 31: module constant `MIN_CONFIDENCE = 0.55`. -/
def MIN_CONFIDENCE : ℚ := 55/100

/-- `groq_oracle.py` line 32: module constant `MAX_STAKE = 20`. -/
def MAX_STAKE : ℤ := 20

/-- `groq_oracle.py` lines 90-93, `calc_stake`, with the module-level
configuration constants `MIN_CONFIDENCE` and `MAX_STAKE` lifted to
parameters (the source reads them as globals):

    if confidence < MIN_CONFIDENCE: return 0
    return max(1, min(MAX_STAKE, round(MAX_STAKE * (confidence - 0.5) * 2)))
-/
def calc_stake (min_confidence : ℚ) (max_stake : ℤ) (confidence : ℚ) : ℤ :=
  if confidence < min_confidence then 0
  else max 1 (min max_stake (pyRound ((max_stake : ℚ) * (confidence - 1/2) * 2)))

lemma pyRound_ge_floor (q : ℚ) : ⌊q⌋ ≤ pyRound q := by
  unfold pyRound
  split_ifs <;> omega

lemma pyRound_le_floor_add_one (q : ℚ) : pyRound q ≤ ⌊q⌋ + 1 := by
  unfold pyRound
  split_ifs <;> omega

lemma pyRound_mono {a b : ℚ} (h : a ≤ b) : pyRound a ≤ pyRound b := by
  have hf : ⌊a⌋ ≤ ⌊b⌋ := Int.floor_mono h
  rcases lt_or_eq_of_le hf with hlt | heq
  · calc pyRound a ≤ ⌊a⌋ + 1 := pyRound_le_floor_add_one a
      _ ≤ ⌊b⌋ := by omega
      _ ≤ pyRound b := pyRound_ge_floor b
  · unfold pyRound
    rw [← heq]
    split_ifs <;> first | omega | (exfalso; linarith)

lemma floor_eq_of_bounds (q : ℚ) (z : ℤ) (h1 : (z : ℚ) ≤ q) (h2 : q < z + 1) :
    ⌊q⌋ = z := by
  rw [Int.floor_eq_iff]
  · exact ⟨h1, by linarith⟩

lemma pyRound_intCast (z : ℤ) : pyRound (z : ℚ) = z := by
  unfold pyRound
  rw [Int.floor_intCast]
  simp

/-- C1: For every confidence `c`, threshold `min_confidence` and (positive
integer) cap `max_stake`, the stake policy returns 0 when
`c < min_confidence`, and `min(max_stake, max(1, round(max_stake * (c - 0.5) * 2)))`
when `c ≥ min_confidence`.  The cap in the source is the constant
`MAX_STAKE = 20`, so the hypothesis `1 ≤ max_stake` holds for the program. -/
theorem calc_stake_spec (min_confidence : ℚ) (max_stake : ℤ) (hmax : 1 ≤ max_stake)
    (c : ℚ) :
    (c < min_confidence → calc_stake min_confidence max_stake c = 0) ∧
    (min_confidence ≤ c →
      calc_stake min_confidence max_stake c =
        min max_stake (max 1 (pyRound ((max_stake : ℚ) * (c - 1/2) * 2)))) := by
  constructor
  · intro h
    rw [calc_stake, if_pos h]
  · intro h
    rw [calc_stake, if_neg (not_lt.mpr h)]
    omega

/-- Witness for C1 at the spec's worked example: `min_confidence = 0.55`,
`max_stake = 20`, `c = 0.9`. -/
theorem calc_stake_spec_witness :
    (1 : ℤ) ≤ 20 ∧ (55/100 : ℚ) ≤ 9/10 ∧
    calc_stake (55/100) 20 (9/10) =
      min 20 (max 1 (pyRound ((20 : ℚ) * ((9:ℚ)/10 - 1/2) * 2))) :=
  ⟨by norm_num, by norm_num,
    (calc_stake_spec (55/100) 20 (by norm_num) (9/10)).2 (by norm_num)⟩

/-- C2: at or above the threshold the stake is in `[1, max_stake]`, and the
stake is monotonically non-decreasing in the confidence. -/
theorem calc_stake_bounds_mono (min_confidence : ℚ) (max_stake : ℤ)
    (hmax : 1 ≤ max_stake) :
    (∀ c : ℚ, min_confidence ≤ c →
      1 ≤ calc_stake min_confidence max_stake c ∧
      calc_stake min_confidence max_stake c ≤ max_stake) ∧
    (∀ c1 c2 : ℚ, min_confidence ≤ c1 → min_confidence ≤ c2 → c1 ≤ c2 →
      calc_stake min_confidence max_stake c1 ≤ calc_stake min_confidence max_stake c2) := by
  have hcast : (0 : ℚ) ≤ (max_stake : ℚ) := by
    have : (0 : ℤ) ≤ max_stake := le_trans zero_le_one hmax
    exact_mod_cast this
  constructor
  · intro c hc
    rw [calc_stake, if_neg (not_lt.mpr hc)]
    omega
  · intro c1 c2 h1 h2 h12
    rw [calc_stake, if_neg (not_lt.mpr h1), calc_stake, if_neg (not_lt.mpr h2)]
    have harg : (max_stake : ℚ) * (c1 - 1/2) * 2 ≤ (max_stake : ℚ) * (c2 - 1/2) * 2 := by
      nlinarith
    have := pyRound_mono harg
    omega

/-- Witness for C2 at `min_confidence = 0.55`, `max_stake = 20`,
`c1 = 0.6 ≤ c2 = 0.9`. -/
theorem calc_stake_bounds_mono_witness :
    (1 : ℤ) ≤ 20 ∧ (55/100 : ℚ) ≤ 6/10 ∧ (55/100 : ℚ) ≤ 9/10 ∧ (6/10 : ℚ) ≤ 9/10 ∧
    (1 ≤ calc_stake (55/100) 20 (9/10) ∧ calc_stake (55/100) 20 (9/10) ≤ 20) ∧
    calc_stake (55/100) 20 (6/10) ≤ calc_stake (55/100) 20 (9/10) :=
  ⟨by norm_num, by norm_num, by norm_num, by norm_num,
    (calc_stake_bounds_mono (55/100) 20 (by norm_num)).1 (9/10) (by norm_num),
    (calc_stake_bounds_mono (55/100) 20 (by norm_num)).2 (6/10) (9/10)
      (by norm_num) (by norm_num) (by norm_num)⟩

/-- A market as fetched by `fetch_markets` (`groq_oracle.py`): a JSON dict
whose fields are read with `.get`, hence all optional.  Outcome entries are
reduced to their labels (the code only uses the list length and, via the
analyzer, a label). -/
structure Market where
  slug : Option String
  status : Option String
  title : Option String
  description : Option String
  deadline_at : Option String
  polymarket_outcomes : Option (List String)
deriving DecidableEq

/-- The JSON dict produced by `analyze` (`groq_oracle.py` lines 61-86): the
provider's parsed output, fields read with `.get`, hence optional. -/
structure AIOutput where
  p_yes : Option ℚ
  confidence : Option ℚ
  rationale : Option String
  selected_outcome : Option String
deriving DecidableEq

/-- A prior-forecast record from the `my-forecasts` ledger response
(`groq_oracle.py` lines 56-57, 151-168). -/
structure ForecastRec where
  market_slug : Option String
  p_yes : ℚ
  confidence : ℚ
  selected_outcome : Option String
  updated_at : Option String
  created_at : Option String
deriving DecidableEq

/-- The HTTP response of the `my-forecasts` query, as consumed by
`fetch_my_forecasts`: a status code and the `forecasts` list of its JSON
body (read with `.get("forecasts", [])`). -/
structure LedgerResponse where
  status_code : ℕ
  forecasts : Option (List ForecastRec)

/-- The JSON body built by `submit_forecast` (`groq_oracle.py` lines 98-106). -/
structure Payload where
  market_slug : String
  p_yes : ℚ
  confidence : ℚ
  stake_units : ℤ
  rationale : String
  selected_outcome : Option String
deriving DecidableEq

/-- Per-task outcome of one pass of the main loop. -/
inductive TaskOutcome where
  | Submitted
  | Skipped
  | AlreadyVoted
  | Expired
  | Failed (e : String)
deriving DecidableEq

/-- The observable result of processing one fetched market: its slug, the
outcome, and the submission payload sent (if any). -/
structure TaskResult where
  slug : String
  outcome : TaskOutcome
  payload : Option Payload
deriving DecidableEq

/-- `groq_oracle.py` lines 126-131, `iso_to_unix`: parse an ISO timestamp,
returning 0 on any parse failure.  `parse` stands for the external
`datetime.fromisoformat` composed with `int(dt.timestamp())`; `none` means
the library raised (in particular `parse "" = none`, since
`fromisoformat("")` raises `ValueError`). -/
def iso_to_unix (parse : String → Option ℤ) (s : String) : ℤ :=
  (parse s).getD 0

/-- `groq_oracle.py` lines 97-106, the payload constructed by
`submit_forecast`: `p_yes` and `confidence` are rounded to 4 decimal
places, the rationale truncated to 2000 characters, and
`selected_outcome` included only when truthy (non-`None`, non-empty). -/
def submit_forecast_payload (slug : String) (p_yes confidence : ℚ) (stake : ℤ)
    (rationale : String) (selected_outcome : Option String) : Payload :=
  { market_slug := slug
    p_yes := round4 p_yes
    confidence := round4 confidence
    stake_units := stake
    rationale := rationale.take 2000
    selected_outcome :=
      if selected_outcome.getD "" = "" then none else selected_outcome }

/-- `groq_oracle.py` lines 171-197: the analyze-clamp-boost-stake-submit part
of the loop body, reached once a task is eligible.  The analyzer is the
external provider call: `.error e` models `analyze` raising. -/
def analyze_and_submit (analyzer : Market → Except String AIOutput)
    (m : Market) : TaskResult :=
  let slug := m.slug.getD "unknown"
  match analyzer m with
  | .error e => ⟨slug, .Failed e, none⟩
  | .ok ai =>
    let p_yes := max (1/100 : ℚ) (min (99/100) (ai.p_yes.getD (1/2)))
    let confidence := max (0 : ℚ) (min 1 (ai.confidence.getD 0))
    let rationale := ai.rationale.getD ""
    let outcomes := m.polymarket_outcomes.getD []
    let selected := if 1 < outcomes.length then ai.selected_outcome else none
    let effective_conf :=
      if outcomes.length ≤ 1 ∧ selected = none ∧ p_yes < 1/2 then
        max confidence (1 - p_yes)
      else confidence
    let stake := calc_stake MIN_CONFIDENCE MAX_STAKE effective_conf
    if stake = 0 then ⟨slug, .Skipped, none⟩
    else
      ⟨slug, .Submitted,
        some (submit_forecast_payload slug p_yes confidence stake rationale selected)⟩

/-- `groq_oracle.py` lines 144-200: the body of the main loop for one fetched
market — expiry check, revote policy, then `analyze_and_submit`. -/
def processTask (parse : String → Option ℤ)
    (analyzer : Market → Except String AIOutput)
    (allow_revote : Bool) (revote_deadline_within : ℤ) (now : ℤ)
    (existing : List (String × ForecastRec)) (m : Market) : TaskResult :=
  let slug := m.slug.getD "unknown"
  if m.status = some "closed" then ⟨slug, .Expired, none⟩
  else
    match existing.lookup slug with
    | some _ =>
      if allow_revote then analyze_and_submit analyzer m
      else if 0 < revote_deadline_within then
        if iso_to_unix parse (m.deadline_at.getD "") - now ≤ revote_deadline_within then
          analyze_and_submit analyzer m
        else ⟨slug, .AlreadyVoted, none⟩
      else ⟨slug, .AlreadyVoted, none⟩
    | none => analyze_and_submit analyzer m

/-- One reconciliation pass: the main loop over all fetched markets. -/
def runPass (parse : String → Option ℤ)
    (analyzer : Market → Except String AIOutput)
    (allow_revote : Bool) (revote_deadline_within : ℤ) (now : ℤ)
    (existing : List (String × ForecastRec)) (markets : List Market) :
    List TaskResult :=
  markets.map (processTask parse analyzer allow_revote revote_deadline_within now existing)

/-- Python-dict insertion (later keys overwrite earlier ones), used to model
the dict comprehension in `fetch_my_forecasts`. -/
def dictInsert (d : List (String × ForecastRec)) (k : String) (v : ForecastRec) :
    List (String × ForecastRec) :=
  d.filter (fun p => p.1 ≠ k) ++ [(k, v)]

/-- `groq_oracle.py` lines 46-57, `fetch_my_forecasts`: on a non-200 response
it warns and returns the empty dict; otherwise it keys the returned
forecasts by truthy (present, non-empty) `market_slug`. -/
def fetch_my_forecasts (res : LedgerResponse) : List (String × ForecastRec) :=
  if res.status_code ≠ 200 then []
  else
    ((res.forecasts.getD []).filter (fun f => f.market_slug.getD "" ≠ "")).foldl
      (fun d f => dictInsert d (f.market_slug.getD "") f) []

/-- The stake the loop body actually computed for a task: the stake of the
payload it sent, or 0 when it sent none. -/
def stakeUsed (r : TaskResult) : ℤ :=
  match r.payload with
  | some pl => pl.stake_units
  | none => 0

/-- The three revote-policy verdicts named by the specification. -/
inductive RevoteDecision where
  | Eligible
  | AlreadyVoted
  | Expired
deriving DecidableEq

/-- The revote decision as the specification words it: a strict priority
chain over the four inputs (has_prior, is_closed, allow_revote,
within_window), expiry first.  Stated from the spec to be compared with the
control flow of `processTask`. -/
def claimRevoteDecision (has_prior is_closed allow_revote within_window : Bool) :
    RevoteDecision :=
  if is_closed then .Expired
  else if !has_prior then .Eligible
  else if allow_revote then .Eligible
  else if within_window then .Eligible
  else .AlreadyVoted

lemma pyRound_eq_of_lt (q : ℚ) (z : ℤ) (h1 : (z : ℚ) ≤ q) (h2 : q < z + 1/2) :
    pyRound q = z := by
  have hf : ⌊q⌋ = z := floor_eq_of_bounds q z h1 (by linarith)
  unfold pyRound
  rw [hf, if_pos (by linarith)]

lemma pyRound_eq_of_gt (q : ℚ) (z : ℤ) (hf : ⌊q⌋ = z) (h : 1/2 < q - z) :
    pyRound q = z + 1 := by
  unfold pyRound
  rw [hf, if_neg (by linarith), if_pos (by linarith)]

lemma pyRound_eq_tie (q : ℚ) (z : ℤ) (hf : ⌊q⌋ = z) (ht : q - z = 1/2) :
    pyRound q = if z % 2 = 0 then z else z + 1 := by
  unfold pyRound
  rw [hf, if_neg (by linarith), if_neg (by linarith)]

lemma round4_mono {a b : ℚ} (h : a ≤ b) : round4 a ≤ round4 b := by
  unfold round4
  have h1 : pyRound (a * 10000) ≤ pyRound (b * 10000) :=
    pyRound_mono (by nlinarith)
  have h2 : ((pyRound (a * 10000) : ℤ) : ℚ) ≤ ((pyRound (b * 10000) : ℤ) : ℚ) := by
    exact_mod_cast h1
  linarith

lemma round4_intMul (z : ℤ) (q : ℚ) (h : q * 10000 = (z : ℚ)) :
    round4 q = (z : ℚ) / 10000 := by
  unfold round4
  rw [h, pyRound_intCast]

lemma stakeUsed_step (slug : String) (p c : ℚ) (r : String) (sel : Option String)
    (s : ℤ) :
    stakeUsed (if s = 0 then (⟨slug, .Skipped, none⟩ : TaskResult)
      else ⟨slug, .Submitted, some (submit_forecast_payload slug p c s r sel)⟩) = s := by
  split_ifs with h0
  · simp [stakeUsed, h0]
  · simp [stakeUsed, submit_forecast_payload]

lemma stakeUsed_analyze_and_submit (a : Market → Except String AIOutput)
    (m : Market) (ai : AIOutput) (h : a m = .ok ai) :
    stakeUsed (analyze_and_submit a m) =
      calc_stake MIN_CONFIDENCE MAX_STAKE
        (if (m.polymarket_outcomes.getD []).length ≤ 1 ∧
            (if 1 < (m.polymarket_outcomes.getD []).length then
              ai.selected_outcome else none) = none ∧
            max (1/100 : ℚ) (min (99/100) (ai.p_yes.getD (1/2))) < 1/2 then
          max (max (0 : ℚ) (min 1 (ai.confidence.getD 0)))
            (1 - max (1/100 : ℚ) (min (99/100) (ai.p_yes.getD (1/2))))
        else max (0 : ℚ) (min 1 (ai.confidence.getD 0))) := by
  simp only [analyze_and_submit, h]
  exact stakeUsed_step _ _ _ _ _ _

/-- C3: for a binary task (at most one listed outcome, no selected outcome)
whose clamped estimate has `p_yes < 0.5`, the confidence fed to the stake
policy is `max raw_confidence (1 - p_yes)`; every other task feeds the raw
clamped confidence unchanged. -/
theorem effective_confidence_policy (analyzer : Market → Except String AIOutput)
    (m : Market) (ai : AIOutput) (h : analyzer m = .ok ai) :
    ((m.polymarket_outcomes.getD []).length ≤ 1 ∧
        (if 1 < (m.polymarket_outcomes.getD []).length then
          ai.selected_outcome else none) = none ∧
        max (1/100 : ℚ) (min (99/100) (ai.p_yes.getD (1/2))) < 1/2 →
      stakeUsed (analyze_and_submit analyzer m) =
        calc_stake MIN_CONFIDENCE MAX_STAKE
          (max (max (0 : ℚ) (min 1 (ai.confidence.getD 0)))
            (1 - max (1/100 : ℚ) (min (99/100) (ai.p_yes.getD (1/2)))))) ∧
    (¬((m.polymarket_outcomes.getD []).length ≤ 1 ∧
        (if 1 < (m.polymarket_outcomes.getD []).length then
          ai.selected_outcome else none) = none ∧
        max (1/100 : ℚ) (min (99/100) (ai.p_yes.getD (1/2))) < 1/2) →
      stakeUsed (analyze_and_submit analyzer m) =
        calc_stake MIN_CONFIDENCE MAX_STAKE
          (max (0 : ℚ) (min 1 (ai.confidence.getD 0)))) := by
  have key := stakeUsed_analyze_and_submit analyzer m ai h
  constructor <;> intro hc
  · rwa [if_pos hc] at key
  · rwa [if_neg hc] at key

/-- Witness for C3: a binary market, provider estimate
`p_yes = 0.2, confidence = 0.6`: the boosted confidence
`max 0.6 (1 - 0.2) = 0.8` is fed to the stake policy. -/
theorem effective_confidence_policy_witness :
    ((fun _ : Market =>
        (Except.ok (⟨some (2/10), some (6/10), none, none⟩ : AIOutput) :
          Except String AIOutput))
        (⟨some "m1", some "open", none, none, none, none⟩ : Market) =
      .ok (⟨some (2/10), some (6/10), none, none⟩ : AIOutput)) ∧
    (((⟨some "m1", some "open", none, none, none, none⟩ : Market).polymarket_outcomes.getD
        []).length ≤ 1 ∧
      (if 1 < (((⟨some "m1", some "open", none, none, none, none⟩ :
            Market)).polymarket_outcomes.getD []).length then
        (⟨some (2/10), some (6/10), none, none⟩ : AIOutput).selected_outcome
      else none) = none ∧
      max (1/100 : ℚ)
        (min (99/100)
          ((⟨some (2/10), some (6/10), none, none⟩ : AIOutput).p_yes.getD (1/2))) < 1/2) ∧
    stakeUsed (analyze_and_submit
        (fun _ : Market =>
          (Except.ok (⟨some (2/10), some (6/10), none, none⟩ : AIOutput) :
            Except String AIOutput))
        (⟨some "m1", some "open", none, none, none, none⟩ : Market)) =
      calc_stake MIN_CONFIDENCE MAX_STAKE
        (max (max (0 : ℚ)
            (min 1 ((⟨some (2/10), some (6/10), none, none⟩ : AIOutput).confidence.getD 0)))
          (1 - max (1/100 : ℚ)
            (min (99/100)
              ((⟨some (2/10), some (6/10), none, none⟩ : AIOutput).p_yes.getD (1/2))))) :=
  ⟨rfl,
    ⟨by norm_num, by norm_num, by norm_num [max_def, min_def]⟩,
    (effective_confidence_policy
        (fun _ : Market =>
          (Except.ok (⟨some (2/10), some (6/10), none, none⟩ : AIOutput) :
            Except String AIOutput))
        (⟨some "m1", some "open", none, none, none, none⟩ : Market)
        (⟨some (2/10), some (6/10), none, none⟩ : AIOutput) rfl).1
      ⟨by norm_num, by norm_num, by norm_num [max_def, min_def]⟩⟩

/-- C4: the per-task decision of `processTask` is the strict priority chain
over (has_prior, is_closed, allow_revote, within_window) the specification
describes: closed means Expired (no analysis, no submission) regardless of
everything else; otherwise no prior, or `allow_revote`, or a positive
revote window containing the deadline, means Eligible (the analyze path
runs); otherwise AlreadyVoted with no submission. -/
theorem revote_priority_chain (parse : String → Option ℤ) (allow : Bool)
    (within now : ℤ) (existing : List (String × ForecastRec)) (m : Market) :
    (claimRevoteDecision (existing.lookup (m.slug.getD "unknown")).isSome
        (decide (m.status = some "closed")) allow
        (decide (0 < within ∧
          iso_to_unix parse (m.deadline_at.getD "") - now ≤ within)) = .Expired →
      ∀ analyzer, processTask parse analyzer allow within now existing m =
        ⟨m.slug.getD "unknown", .Expired, none⟩) ∧
    (claimRevoteDecision (existing.lookup (m.slug.getD "unknown")).isSome
        (decide (m.status = some "closed")) allow
        (decide (0 < within ∧
          iso_to_unix parse (m.deadline_at.getD "") - now ≤ within)) = .AlreadyVoted →
      ∀ analyzer, processTask parse analyzer allow within now existing m =
        ⟨m.slug.getD "unknown", .AlreadyVoted, none⟩) ∧
    (claimRevoteDecision (existing.lookup (m.slug.getD "unknown")).isSome
        (decide (m.status = some "closed")) allow
        (decide (0 < within ∧
          iso_to_unix parse (m.deadline_at.getD "") - now ≤ within)) = .Eligible →
      ∀ analyzer, processTask parse analyzer allow within now existing m =
        analyze_and_submit analyzer m) := by
  cases allow <;>
    by_cases hclosed : m.status = some "closed" <;>
    rcases hprior : existing.lookup (m.slug.getD "unknown") with _ | ex <;>
    by_cases hwin : 0 < within <;>
    by_cases hrem : iso_to_unix parse (m.deadline_at.getD "") - now ≤ within <;>
    refine ⟨?_, ?_, ?_⟩ <;> intro hd analyzer <;>
    simp only [claimRevoteDecision, processTask, hclosed, hprior, hwin, hrem,
      decide_True, decide_False, eq_self_iff_true, if_true, if_false,
      Option.isSome_none, Option.isSome_some, Bool.not_true, Bool.not_false,
      decide_eq_true_eq] at hd ⊢ <;>
    simp_all

/-- Witness for C4: a closed task is Expired regardless of the analyzer. -/
theorem revote_priority_chain_witness :
    processTask (fun _ => none) (fun _ => .error "boom") false 0 0 []
        (⟨some "m1", some "closed", none, none, none, none⟩ : Market) =
      ⟨"m1", .Expired, none⟩ :=
  (revote_priority_chain (fun _ => none) false 0 0 []
      (⟨some "m1", some "closed", none, none, none, none⟩ : Market)).1
    (by rfl) (fun _ => .error "boom")

lemma analyze_and_submit_outcome_ne (a : Market → Except String AIOutput)
    (m : Market) :
    (analyze_and_submit a m).outcome ≠ .AlreadyVoted ∧
    (analyze_and_submit a m).outcome ≠ .Expired := by
  unfold analyze_and_submit
  rcases ha : a m with e | ai
  · simp
  · dsimp only
    split_ifs <;> simp

/-- C5: a per-task analysis failure is recorded as Failed for that task and
never aborts the pass: the pass result has exactly one entry per fetched
task, the entry at each position depends only on the market at that
position, and an eligible task whose analyzer raises gets outcome Failed. -/
theorem analysis_failure_isolated (parse : String → Option ℤ)
    (analyzer : Market → Except String AIOutput) (allow : Bool) (within now : ℤ)
    (existing : List (String × ForecastRec)) (markets : List Market) :
    (runPass parse analyzer allow within now existing markets).length =
      markets.length ∧
    (∀ j : ℕ, (runPass parse analyzer allow within now existing markets)[j]? =
      (markets[j]?).map (processTask parse analyzer allow within now existing)) ∧
    (∀ (i : ℕ) (m : Market) (e : String), markets[i]? = some m →
      m.status ≠ some "closed" →
      existing.lookup (m.slug.getD "unknown") = none →
      analyzer m = .error e →
      ((runPass parse analyzer allow within now existing markets)[i]?).map
        TaskResult.outcome = some (.Failed e)) := by
  refine ⟨List.length_map _ _, fun j => List.getElem?_map _ _ _, ?_⟩
  intro i m e hi hop hpr herr
  rw [runPass, List.getElem?_map, hi]
  simp only [Option.map_some']
  simp [processTask, hop, hpr, analyze_and_submit, herr]

/-- Witness for C5: the first of two open tasks fails analysis; its outcome
is Failed and the pass still maps over both tasks. -/
theorem analysis_failure_isolated_witness :
    (([(⟨some "a", none, none, none, none, none⟩ : Market),
        (⟨some "b", none, none, none, none, none⟩ : Market)])[0]? =
      some (⟨some "a", none, none, none, none, none⟩ : Market)) ∧
    ((⟨some "a", none, none, none, none, none⟩ : Market).status ≠ some "closed") ∧
    (([] : List (String × ForecastRec)).lookup
      ((⟨some "a", none, none, none, none, none⟩ : Market).slug.getD "unknown") =
      none) ∧
    ((fun _ : Market => (.error "boom" : Except String AIOutput))
        (⟨some "a", none, none, none, none, none⟩ : Market) = .error "boom") ∧
    ((runPass (fun _ => none)
        (fun _ : Market => (.error "boom" : Except String AIOutput)) false 0 0 []
        [(⟨some "a", none, none, none, none, none⟩ : Market),
          (⟨some "b", none, none, none, none, none⟩ : Market)])[0]?).map
      TaskResult.outcome = some (.Failed "boom") :=
  ⟨rfl, by simp, rfl, rfl,
    (analysis_failure_isolated (fun _ => none)
        (fun _ : Market => (.error "boom" : Except String AIOutput)) false 0 0 []
        [(⟨some "a", none, none, none, none, none⟩ : Market),
          (⟨some "b", none, none, none, none, none⟩ : Market)]).2.2 0
      (⟨some "a", none, none, none, none, none⟩ : Market) "boom" rfl (by simp)
      rfl rfl⟩

/-- C6: a non-200 ledger response makes `fetch_my_forecasts` return the
empty dict, so the pass proceeds exactly as with an empty ledger: every
task is treated as having no prior submission and no task can come out
AlreadyVoted. -/
theorem ledger_fail_open (res : LedgerResponse) (h : res.status_code ≠ 200) :
    fetch_my_forecasts res = [] ∧
    (∀ parse analyzer allow within now markets,
      runPass parse analyzer allow within now (fetch_my_forecasts res) markets =
        runPass parse analyzer allow within now [] markets) ∧
    (∀ parse analyzer allow within now markets r,
      r ∈ runPass parse analyzer allow within now (fetch_my_forecasts res) markets →
      r.outcome ≠ .AlreadyVoted) := by
  have hempty : fetch_my_forecasts res = [] := by
    simp [fetch_my_forecasts, h]
  refine ⟨hempty, fun parse a allow w n ms => by rw [hempty], ?_⟩
  intro parse a allow w n ms r hr
  rw [hempty, runPass] at hr
  rcases List.mem_map.mp hr with ⟨m, hm, rfl⟩
  by_cases hc : m.status = some "closed"
  · simp [processTask, hc]
  · simp only [processTask, hc, List.lookup_nil, if_false, eq_self_iff_true]
    exact (analyze_and_submit_outcome_ne a m).1

/-- Witness for C6 at a concrete HTTP 500 ledger response. -/
theorem ledger_fail_open_witness :
    ((⟨500, none⟩ : LedgerResponse).status_code ≠ 200) ∧
    fetch_my_forecasts (⟨500, none⟩ : LedgerResponse) = [] :=
  ⟨by decide, (ledger_fail_open (⟨500, none⟩ : LedgerResponse) (by decide)).1⟩

/-- C10: with a prior submission, `allow_revote` off and a positive revote
window, a missing or unparsable deadline parses to unix time 0, so the
remaining time `0 - now` is negative, within the window: the task is
treated as Eligible and re-analyzed. -/
theorem unparsable_deadline_revote (parse : String → Option ℤ)
    (analyzer : Market → Except String AIOutput) (within now : ℤ)
    (existing : List (String × ForecastRec)) (m : Market) (f : ForecastRec)
    (hprior : existing.lookup (m.slug.getD "unknown") = some f)
    (hopen : m.status ≠ some "closed")
    (hwin : 0 < within) (hnow : 0 < now)
    (hparse : parse (m.deadline_at.getD "") = none) :
    iso_to_unix parse (m.deadline_at.getD "") = 0 ∧
    iso_to_unix parse (m.deadline_at.getD "") - now < 0 ∧
    processTask parse analyzer false within now existing m =
      analyze_and_submit analyzer m := by
  have h0 : iso_to_unix parse (m.deadline_at.getD "") = 0 := by
    simp [iso_to_unix, hparse]
  have hrem : iso_to_unix parse (m.deadline_at.getD "") - now ≤ within := by
    rw [h0]; omega
  refine ⟨h0, by omega, ?_⟩
  simp [processTask, hopen, hprior, hwin, hrem]

/-- Witness for C10: prior vote on "m1", `ALLOW_REVOTE` off, 5-second
window, missing `deadline_at`. -/
theorem unparsable_deadline_revote_witness :
    (((([("m1", (⟨some "m1", 0, 0, none, none, none⟩ : ForecastRec))]) :
        List (String × ForecastRec)).lookup
      ((⟨some "m1", none, none, none, none, none⟩ : Market).slug.getD "unknown")) =
      some (⟨some "m1", 0, 0, none, none, none⟩ : ForecastRec)) ∧
    ((0 : ℤ) < 5) ∧ ((0 : ℤ) < 100) ∧
    processTask (fun _ => none)
        (fun _ : Market => (.error "x" : Except String AIOutput)) false 5 100
        [("m1", (⟨some "m1", 0, 0, none, none, none⟩ : ForecastRec))]
        (⟨some "m1", none, none, none, none, none⟩ : Market) =
      analyze_and_submit (fun _ : Market => (.error "x" : Except String AIOutput))
        (⟨some "m1", none, none, none, none, none⟩ : Market) :=
  ⟨rfl, by decide, by decide,
    (unparsable_deadline_revote (fun _ => none)
        (fun _ : Market => (.error "x" : Except String AIOutput)) 5 100
        [("m1", (⟨some "m1", 0, 0, none, none, none⟩ : ForecastRec))]
        (⟨some "m1", none, none, none, none, none⟩ : Market)
        (⟨some "m1", 0, 0, none, none, none⟩ : ForecastRec) rfl (by simp)
        (by decide) (by decide) rfl).2.2⟩

lemma round4_eq_self_of (z : ℤ) (q : ℚ) (h : q * 10000 = (z : ℚ))
    (h2 : (z : ℚ) / 10000 = q) : round4 q = q := by
  rw [round4_intMul z q h, h2]

lemma payload_step (slug : String) (p c : ℚ) (r : String) (sel : Option String)
    (s : ℤ) (pl : Payload)
    (hpl : (if s = 0 then (⟨slug, .Skipped, none⟩ : TaskResult)
      else ⟨slug, .Submitted,
        some (submit_forecast_payload slug p c s r sel)⟩).payload = some pl) :
    pl = submit_forecast_payload slug p c s r sel := by
  split_ifs at hpl with h0
  have h2 : some (submit_forecast_payload slug p c s r sel) = some pl := hpl
  exact (Option.some.inj h2).symm

lemma analyze_payload_shape (a : Market → Except String AIOutput) (m : Market)
    (pl : Payload) (hpl : (analyze_and_submit a m).payload = some pl) :
    ∃ ai : AIOutput, a m = .ok ai ∧
      pl.market_slug = m.slug.getD "unknown" ∧
      pl.p_yes = round4 (max (1/100 : ℚ) (min (99/100) (ai.p_yes.getD (1/2)))) ∧
      pl.confidence = round4 (max (0 : ℚ) (min 1 (ai.confidence.getD 0))) ∧
      pl.rationale = (ai.rationale.getD "").take 2000 ∧
      pl.selected_outcome =
        (if (if 1 < (m.polymarket_outcomes.getD []).length then
              ai.selected_outcome else none).getD "" = "" then none
          else if 1 < (m.polymarket_outcomes.getD []).length then
            ai.selected_outcome else none) ∧
      pl.stake_units = calc_stake MIN_CONFIDENCE MAX_STAKE
        (if (m.polymarket_outcomes.getD []).length ≤ 1 ∧
            (if 1 < (m.polymarket_outcomes.getD []).length then
              ai.selected_outcome else none) = none ∧
            max (1/100 : ℚ) (min (99/100) (ai.p_yes.getD (1/2))) < 1/2 then
          max (max (0 : ℚ) (min 1 (ai.confidence.getD 0)))
            (1 - max (1/100 : ℚ) (min (99/100) (ai.p_yes.getD (1/2))))
        else max (0 : ℚ) (min 1 (ai.confidence.getD 0))) := by
  unfold analyze_and_submit at hpl
  rcases ha : a m with e | ai
  · rw [ha] at hpl
    simp at hpl
  · rw [ha] at hpl
    dsimp only at hpl
    have hp := payload_step _ _ _ _ _ _ _ hpl
    subst hp
    exact ⟨ai, rfl, by refine ⟨?_, ?_, ?_, ?_, ?_, ?_⟩ <;> simp [submit_forecast_payload]⟩

/-- C9 (amended): the effective-confidence boost affects only the stake
field.  Every other field of the submitted payload is the corresponding
clamped analyzer value post-processed exactly as `submit_forecast` always
does — `p_yes` and `confidence` rounded to 4 decimals, the rationale
truncated to 2000 characters, `selected_outcome` passed through when
truthy — and in particular the submitted confidence is computed from the
raw clamped confidence, never from the boosted effective confidence. -/
theorem boost_only_affects_stake (a : Market → Except String AIOutput)
    (m : Market) (ai : AIOutput) (h : a m = .ok ai) (pl : Payload)
    (hpl : (analyze_and_submit a m).payload = some pl) :
    pl.market_slug = m.slug.getD "unknown" ∧
    pl.p_yes = round4 (max (1/100 : ℚ) (min (99/100) (ai.p_yes.getD (1/2)))) ∧
    pl.confidence = round4 (max (0 : ℚ) (min 1 (ai.confidence.getD 0))) ∧
    pl.rationale = (ai.rationale.getD "").take 2000 ∧
    pl.selected_outcome =
      (if (if 1 < (m.polymarket_outcomes.getD []).length then
            ai.selected_outcome else none).getD "" = "" then none
        else if 1 < (m.polymarket_outcomes.getD []).length then
          ai.selected_outcome else none) ∧
    pl.stake_units = calc_stake MIN_CONFIDENCE MAX_STAKE
      (if (m.polymarket_outcomes.getD []).length ≤ 1 ∧
          (if 1 < (m.polymarket_outcomes.getD []).length then
            ai.selected_outcome else none) = none ∧
          max (1/100 : ℚ) (min (99/100) (ai.p_yes.getD (1/2))) < 1/2 then
        max (max (0 : ℚ) (min 1 (ai.confidence.getD 0)))
          (1 - max (1/100 : ℚ) (min (99/100) (ai.p_yes.getD (1/2))))
      else max (0 : ℚ) (min 1 (ai.confidence.getD 0))) := by
  rcases analyze_payload_shape a m pl hpl with ⟨ai', ha', hshape⟩
  rw [h] at ha'
  injection ha' with hai
  subst hai
  exact hshape

/-- The JSON body shape shared by `simple_oracle.py`, `claude_oracle.py`,
`openai_oracle.py` and `gemini_oracle.py` submissions (stake is a float
there). -/
structure SimpleBody where
  market_slug : String
  p_yes : ℚ
  confidence : ℚ
  stake_units : ℚ
  rationale : String
deriving DecidableEq

/-- `simple_oracle.py` lines 52-59: the body built by `submit_forecast` —
`p_yes` and `confidence` clamped into [0,1], stake into [0.1,100],
rationale truncated to 2000 characters when truthy. -/
def simple_submit_forecast_body (market_slug : String) (p_yes confidence : ℚ)
    (stake_units : ℚ) (rationale : String) : SimpleBody :=
  { market_slug
    p_yes := max 0 (min 1 p_yes)
    confidence := max 0 (min 1 confidence)
    stake_units := max (1/10) (min 100 stake_units)
    rationale := if rationale = "" then "" else rationale.take 2000 }

/-- The prediction dict `claude_oracle.analyze_market` returns (required
keys, as indexed by `submit_forecast` there). -/
structure ClaudePrediction where
  p_yes : ℚ
  confidence : ℚ
  rationale : String
deriving DecidableEq

/-- `claude_oracle.py` lines 76-86: the body built by `submit_forecast` —
the provider values are passed through with no clamping at all. -/
def claude_submit_forecast_body (market_slug : String)
    (prediction : ClaudePrediction) (stake : ℚ) : SimpleBody :=
  { market_slug
    p_yes := prediction.p_yes
    confidence := prediction.confidence
    stake_units := stake
    rationale := prediction.rationale }

/-- C7 counterexample: `claude_oracle.py`'s `submit_forecast` places an
out-of-range provider value `p_yes = 1.5` into the payload unclamped, so
clamping does not hold for every submission variant in the repository. -/
theorem claude_unclamped_counterexample :
    (claude_submit_forecast_body "m1" ⟨3/2, 2, "r"⟩ 5).p_yes = 3/2 ∧
    ¬((claude_submit_forecast_body "m1" ⟨3/2, 2, "r"⟩ 5).p_yes ≤ 1) := by
  have h : (claude_submit_forecast_body "m1" ⟨3/2, 2, "r"⟩ 5).p_yes = 3/2 := rfl
  rw [h]
  norm_num

/-- C7 (amended): the variants that do clamp are `simple_oracle.py`
(`p_yes` and `confidence` into [0,1]) and the groq pipeline (`p_yes` into
[0.01, 0.99] and `confidence` into [0,1], before 4-decimal rounding, which
preserves those ranges); the claude/openai/gemini and CLI variants pass
values through unclamped. -/
theorem clamped_submission_variants :
    (∀ (slug : String) (p c s : ℚ) (r : String),
      0 ≤ (simple_submit_forecast_body slug p c s r).p_yes ∧
      (simple_submit_forecast_body slug p c s r).p_yes ≤ 1 ∧
      0 ≤ (simple_submit_forecast_body slug p c s r).confidence ∧
      (simple_submit_forecast_body slug p c s r).confidence ≤ 1) ∧
    (∀ (a : Market → Except String AIOutput) (m : Market) (pl : Payload),
      (analyze_and_submit a m).payload = some pl →
      1/100 ≤ pl.p_yes ∧ pl.p_yes ≤ 99/100 ∧
      0 ≤ pl.confidence ∧ pl.confidence ≤ 1) := by
  have hq1 : round4 (1/100 : ℚ) = 1/100 :=
    round4_eq_self_of 100 _ (by norm_num) (by norm_num)
  have hq99 : round4 (99/100 : ℚ) = 99/100 :=
    round4_eq_self_of 9900 _ (by norm_num) (by norm_num)
  have hq0 : round4 (0 : ℚ) = 0 :=
    round4_eq_self_of 0 _ (by norm_num) (by norm_num)
  have hqone : round4 (1 : ℚ) = 1 :=
    round4_eq_self_of 10000 _ (by norm_num) (by norm_num)
  constructor
  · intro slug p c s r
    simp only [simple_submit_forecast_body]
    exact ⟨le_max_left _ _, max_le (by norm_num) (min_le_left _ _),
      le_max_left _ _, max_le (by norm_num) (min_le_left _ _)⟩
  · intro a m pl hpl
    rcases analyze_payload_shape a m pl hpl with ⟨ai, _, _, hpy, hconf, _⟩
    rw [hpy, hconf]
    refine ⟨?_, ?_, ?_, ?_⟩
    · have h := round4_mono
        (le_max_left (1/100 : ℚ) (min (99/100) (ai.p_yes.getD (1/2))))
      rwa [hq1] at h
    · have h := round4_mono
        (max_le (show (1/100 : ℚ) ≤ 99/100 by norm_num)
          (min_le_left (99/100 : ℚ) (ai.p_yes.getD (1/2))))
      rwa [hq99] at h
    · have h := round4_mono
        (le_max_left (0 : ℚ) (min 1 (ai.confidence.getD 0)))
      rwa [hq0] at h
    · have h := round4_mono
        (max_le (show (0 : ℚ) ≤ 1 by norm_num)
          (min_le_left (1 : ℚ) (ai.confidence.getD 0)))
      rwa [hqone] at h

/-- C8 (amended): a raising analyzer (unparsable provider output) is
recorded as Failed; but a provider output that parses while lacking the
numeric `p_yes` and `confidence` fields is not an error: the groq pipeline
defaults them (`p_yes` to 0.5, `confidence` to 0) and proceeds, which ends
in Skipped since confidence 0 is below the threshold. -/
theorem analysis_error_handling (a : Market → Except String AIOutput)
    (m : Market) :
    (∀ e, a m = .error e → (analyze_and_submit a m).outcome = .Failed e) ∧
    (∀ ai : AIOutput, a m = .ok ai → ai.p_yes = none → ai.confidence = none →
      (analyze_and_submit a m).outcome = .Skipped) := by
  constructor
  · intro e he
    simp [analyze_and_submit, he]
  · intro ai hai hp hc
    norm_num [analyze_and_submit, hai, hp, hc, max_def, min_def, calc_stake,
      MIN_CONFIDENCE, MAX_STAKE]

/-- Witness for C8 (amended), the missing-fields branch: provider output
`{}` on an open binary market ends in Skipped. -/
theorem analysis_error_handling_witness :
    ((fun _ : Market =>
        (Except.ok (⟨none, none, none, none⟩ : AIOutput) : Except String AIOutput))
      (⟨some "m2", some "open", none, none, none, none⟩ : Market) =
      .ok (⟨none, none, none, none⟩ : AIOutput)) ∧
    (analyze_and_submit
        (fun _ : Market =>
          (Except.ok (⟨none, none, none, none⟩ : AIOutput) : Except String AIOutput))
        (⟨some "m2", some "open", none, none, none, none⟩ : Market)).outcome =
      .Skipped :=
  ⟨rfl,
    (analysis_error_handling
        (fun _ : Market =>
          (Except.ok (⟨none, none, none, none⟩ : AIOutput) : Except String AIOutput))
        (⟨some "m2", some "open", none, none, none, none⟩ : Market)).2
      (⟨none, none, none, none⟩ : AIOutput) rfl rfl rfl⟩

/-- C8 counterexample: a provider output that parses but has no numeric
`p_yes`/`confidence` fields is not recorded as Failed — the task ends
Skipped (defaulted estimate `p_yes=0.5`, `confidence=0`). -/
theorem missing_fields_skipped_counterexample :
    (analyze_and_submit
        (fun _ : Market =>
          (Except.ok (⟨none, none, none, none⟩ : AIOutput) : Except String AIOutput))
        (⟨some "m1", some "open", none, none, none, none⟩ : Market)).outcome =
      .Skipped := by
  norm_num [analyze_and_submit, max_def, min_def, calc_stake,
    MIN_CONFIDENCE, MAX_STAKE]

/-- C9 counterexample: provider output `p_yes = 0.12345` (= 2469/20000) on
an open binary market is submitted with payload `p_yes = 0.1234`
(= 617/5000), the 4-decimal rounding of the clamped analyzer value, not the
clamped analyzer value itself. -/
theorem submitted_p_yes_rounded_counterexample :
    (analyze_and_submit
        (fun _ : Market =>
          (Except.ok (⟨some (2469/20000), some (9/10), some "r", none⟩ : AIOutput) :
            Except String AIOutput))
        (⟨some "m1", some "open", none, none, none, none⟩ : Market) =
      ⟨"m1", .Submitted, some ⟨"m1", 617/5000, 9/10, 16, "r", none⟩⟩) ∧
    (617/5000 : ℚ) ≠ max (1/100 : ℚ) (min (99/100) (2469/20000)) := by
  have hstake : calc_stake MIN_CONFIDENCE MAX_STAKE (9/10) = 16 := by
    unfold calc_stake MIN_CONFIDENCE MAX_STAKE
    rw [if_neg (by norm_num)]
    rw [show (((20 : ℤ) : ℚ) * ((9:ℚ)/10 - 1/2) * 2) = ((16 : ℤ) : ℚ) by
      push_cast; norm_num]
    rw [pyRound_intCast]
    decide
  have hr4a : round4 (2469/20000 : ℚ) = 617/5000 := by
    unfold round4
    rw [show ((2469/20000 : ℚ) * 10000) = 2469/2 by norm_num]
    rw [pyRound_eq_tie (2469/2) 1234
      (floor_eq_of_bounds _ _ (by norm_num) (by norm_num)) (by norm_num)]
    norm_num
  have hr4b : round4 (9/10 : ℚ) = 9/10 := by
    unfold round4
    rw [show ((9/10 : ℚ) * 10000) = ((9000 : ℤ) : ℚ) by push_cast; norm_num]
    rw [pyRound_intCast]
    norm_num
  have htake : ("r" : String).take 2000 = "r" := by
    rw [String.take_eq]
    rfl
  constructor
  · norm_num [analyze_and_submit, submit_forecast_payload, max_def, min_def,
      hstake, hr4a, hr4b, htake]
  · norm_num [max_def, min_def]

/-- Witness for C9 (amended): provider estimate `p_yes = 0.8,
confidence = 0.9` on an open binary market; the submitted confidence field
is the rounded raw clamped confidence. -/
theorem boost_only_affects_stake_witness :
    ((fun _ : Market =>
        (Except.ok (⟨some (4/5), some (9/10), some "r", none⟩ : AIOutput) :
          Except String AIOutput))
        (⟨some "m1", some "open", none, none, none, none⟩ : Market) =
      .ok (⟨some (4/5), some (9/10), some "r", none⟩ : AIOutput)) ∧
    ((analyze_and_submit
        (fun _ : Market =>
          (Except.ok (⟨some (4/5), some (9/10), some "r", none⟩ : AIOutput) :
            Except String AIOutput))
        (⟨some "m1", some "open", none, none, none, none⟩ : Market)).payload =
      some (⟨"m1", 4/5, 9/10, 16, "r", none⟩ : Payload)) ∧
    ((⟨"m1", 4/5, 9/10, 16, "r", none⟩ : Payload).confidence =
      round4 (max (0 : ℚ)
        (min 1 ((⟨some (4/5), some (9/10), some "r", none⟩ : AIOutput).confidence.getD 0)))) := by
  have hstake : calc_stake MIN_CONFIDENCE MAX_STAKE (9/10) = 16 := by
    unfold calc_stake MIN_CONFIDENCE MAX_STAKE
    rw [if_neg (by norm_num)]
    rw [show (((20 : ℤ) : ℚ) * ((9:ℚ)/10 - 1/2) * 2) = ((16 : ℤ) : ℚ) by
      push_cast; norm_num]
    rw [pyRound_intCast]
    decide
  have hr4c : round4 (4/5 : ℚ) = 4/5 :=
    round4_eq_self_of 8000 _ (by norm_num) (by norm_num)
  have hr4b : round4 (9/10 : ℚ) = 9/10 := by
    unfold round4
    rw [show ((9/10 : ℚ) * 10000) = ((9000 : ℤ) : ℚ) by push_cast; norm_num]
    rw [pyRound_intCast]
    norm_num
  have htake : ("r" : String).take 2000 = "r" := by
    rw [String.take_eq]
    rfl
  have hpl : (analyze_and_submit
      (fun _ : Market =>
        (Except.ok (⟨some (4/5), some (9/10), some "r", none⟩ : AIOutput) :
          Except String AIOutput))
      (⟨some "m1", some "open", none, none, none, none⟩ : Market)).payload =
      some (⟨"m1", 4/5, 9/10, 16, "r", none⟩ : Payload) := by
    norm_num [analyze_and_submit, submit_forecast_payload, max_def, min_def,
      hstake, hr4c, hr4b, htake]
  exact ⟨rfl, hpl,
    (boost_only_affects_stake
        (fun _ : Market =>
          (Except.ok (⟨some (4/5), some (9/10), some "r", none⟩ : AIOutput) :
            Except String AIOutput))
        (⟨some "m1", some "open", none, none, none, none⟩ : Market)
        (⟨some (4/5), some (9/10), some "r", none⟩ : AIOutput) rfl
        (⟨"m1", 4/5, 9/10, 16, "r", none⟩ : Payload) hpl).2.2.1⟩

/-- Witness for C7 (amended): simple_oracle clamps an out-of-range input;
the groq pipeline clamps an out-of-range provider `p_yes = 1.5` into
[0.01, 0.99] before submitting. -/
theorem clamped_submission_variants_witness :
    (0 ≤ (simple_submit_forecast_body "s" (3/2) (1/2) 5 "r").p_yes ∧
      (simple_submit_forecast_body "s" (3/2) (1/2) 5 "r").p_yes ≤ 1 ∧
      0 ≤ (simple_submit_forecast_body "s" (3/2) (1/2) 5 "r").confidence ∧
      (simple_submit_forecast_body "s" (3/2) (1/2) 5 "r").confidence ≤ 1) ∧
    ((analyze_and_submit
        (fun _ : Market =>
          (Except.ok (⟨some (3/2), some (9/10), some "r", none⟩ : AIOutput) :
            Except String AIOutput))
        (⟨some "m3", some "open", none, none, none, none⟩ : Market)).payload =
      some (⟨"m3", 99/100, 9/10, 16, "r", none⟩ : Payload)) ∧
    (1/100 ≤ (⟨"m3", 99/100, 9/10, 16, "r", none⟩ : Payload).p_yes ∧
      (⟨"m3", 99/100, 9/10, 16, "r", none⟩ : Payload).p_yes ≤ 99/100 ∧
      0 ≤ (⟨"m3", 99/100, 9/10, 16, "r", none⟩ : Payload).confidence ∧
      (⟨"m3", 99/100, 9/10, 16, "r", none⟩ : Payload).confidence ≤ 1) := by
  have hstake : calc_stake MIN_CONFIDENCE MAX_STAKE (9/10) = 16 := by
    unfold calc_stake MIN_CONFIDENCE MAX_STAKE
    rw [if_neg (by norm_num)]
    rw [show (((20 : ℤ) : ℚ) * ((9:ℚ)/10 - 1/2) * 2) = ((16 : ℤ) : ℚ) by
      push_cast; norm_num]
    rw [pyRound_intCast]
    decide
  have hr4d : round4 (99/100 : ℚ) = 99/100 :=
    round4_eq_self_of 9900 _ (by norm_num) (by norm_num)
  have hr4b : round4 (9/10 : ℚ) = 9/10 := by
    unfold round4
    rw [show ((9/10 : ℚ) * 10000) = ((9000 : ℤ) : ℚ) by push_cast; norm_num]
    rw [pyRound_intCast]
    norm_num
  have htake : ("r" : String).take 2000 = "r" := by
    rw [String.take_eq]
    rfl
  have hpl : (analyze_and_submit
      (fun _ : Market =>
        (Except.ok (⟨some (3/2), some (9/10), some "r", none⟩ : AIOutput) :
          Except String AIOutput))
      (⟨some "m3", some "open", none, none, none, none⟩ : Market)).payload =
      some (⟨"m3", 99/100, 9/10, 16, "r", none⟩ : Payload) := by
    norm_num [analyze_and_submit, submit_forecast_payload, max_def, min_def,
      hstake, hr4d, hr4b, htake]
  exact ⟨clamped_submission_variants.1 "s" (3/2) (1/2) 5 "r", hpl,
    clamped_submission_variants.2
      (fun _ : Market =>
        (Except.ok (⟨some (3/2), some (9/10), some "r", none⟩ : AIOutput) :
          Except String AIOutput))
      (⟨some "m3", some "open", none, none, none, none⟩ : Market)
      (⟨"m3", 99/100, 9/10, 16, "r", none⟩ : Payload) hpl⟩

end OraclesRun
